import Mathlib

/-!
Verification of the DMHR (Dynamic Machine Hour Rate) calculator core from
`web_dmhr.py`.

The cost-model functions `calculate_fixed_costs`, `calculate_variable_costs`
and `calculate_dmhr`, and the comparison loop behind the "Compare All
Machines" button, are embedded over exact rational arithmetic (`ℚ`).
Python's runtime behaviour of raising `ZeroDivisionError` on division by
exactly zero is modelled with `Except PyError`; division by a nonzero
number (positive or negative) succeeds, exactly as in the source.  Python's
`round(x, 2)` (round-half-to-even at two decimal places) is modelled by
`pyRound2`.
-/

/-- The runtime errors the embedded code can raise: Python's
`ZeroDivisionError`. -/
inductive PyError where
  | zeroDivision
  deriving DecidableEq, Repr

/-- Python division: raises `ZeroDivisionError` when the denominator is
exactly zero, and otherwise returns the exact quotient. -/
def pyDiv (a b : ℚ) : Except PyError ℚ :=
  if b = 0 then .error .zeroDivision else .ok (a / b)

/-- `calculate_fixed_costs(Pm, Ls, inflation_rate, insurance_rate, am, Af, Cb, Hf, Oc, tax_env_cost)`
from `web_dmhr.py` (lines 49-57):

    amortized_cost = Pm / Ls
    inflation_adjustment = Pm * inflation_rate
    insurance_cost = Pm * insurance_rate
    building_space_cost = (am / Af) * Cb if Af != 0 else 0.0
    overhead_cost = (Hf / Ls) * Oc
    FC = amortized_cost + inflation_adjustment + insurance_cost
           + building_space_cost + overhead_cost + tax_env_cost
-/
def calculate_fixed_costs (Pm Ls inflation_rate insurance_rate am Af Cb Hf Oc
    tax_env_cost : ℚ) : Except PyError ℚ := do
  let amortized_cost ← pyDiv Pm Ls
  let inflation_adjustment := Pm * inflation_rate
  let insurance_cost := Pm * insurance_rate
  let building_space_cost := if Af ≠ 0 then (am / Af) * Cb else 0
  let overhead_quot ← pyDiv Hf Ls
  let overhead_cost := overhead_quot * Oc
  return amortized_cost + inflation_adjustment + insurance_cost +
    building_space_cost + overhead_cost + tax_env_cost

/-- `calculate_variable_costs(Pt_m, Rt, Sm, Um, labour_rate, Hf)` from
`web_dmhr.py` (lines 59-64):

    energy_cost = Pt_m * Rt
    maintenance_cost = Sm + Um
    labour_cost = labour_rate * Hf
    VC = energy_cost + maintenance_cost + labour_cost
-/
def calculate_variable_costs (Pt_m Rt Sm Um labour_rate Hf : ℚ) : ℚ :=
  Pt_m * Rt + (Sm + Um) + labour_rate * Hf

/-- `calculate_dmhr(FC, VC, Hf)` from `web_dmhr.py` (lines 66-67):
`return (FC + VC) / Hf`. -/
def calculate_dmhr (FC VC Hf : ℚ) : Except PyError ℚ :=
  pyDiv (FC + VC) Hf

/-- Round a rational to the nearest integer, ties to the even integer
(the tie-breaking rule of Python's `round`). -/
def roundHalfEven (q : ℚ) : ℤ :=
  let f := ⌊q⌋
  let r := q - (f : ℚ)
  if r < 1 / 2 then f
  else if 1 / 2 < r then f + 1
  else if f % 2 = 0 then f else f + 1

/-- Python's `round(x, 2)`: round-half-to-even at two decimal places. -/
def pyRound2 (q : ℚ) : ℚ :=
  (roundHalfEven (q * 100) : ℚ) / 100

/-- One machine's input record, as collected by the Multi-Machine form into
the `machine_inputs` list of dicts (`web_dmhr.py` lines 198-203). -/
structure MachineInputs where
  Machine : String
  Pm : ℚ
  Ls : ℚ
  inflation_rate : ℚ
  insurance_rate : ℚ
  am : ℚ
  Af : ℚ
  Cb : ℚ
  Hf : ℚ
  Oc : ℚ
  tax_env_cost : ℚ
  Pt_m : ℚ
  Rt : ℚ
  Sm : ℚ
  Um : ℚ
  labour_rate : ℚ
  deriving DecidableEq, Repr

/-- One row of the `results` list built by the compare loop
(`web_dmhr.py` lines 215-223): label, `round(FC, 2)`, `round(VC, 2)`,
`round(DMHR, 2)`, and the three echoed raw inputs. -/
structure ResultRow where
  Machine : String
  fixedCost : ℚ
  variableCost : ℚ
  dmhr : ℚ
  hoursUsed : ℚ
  purchaseCost : ℚ
  lifespan : ℚ
  deriving DecidableEq, Repr

/-- The body of the compare loop for one machine `m`
(`web_dmhr.py` lines 209-223): compute FC, VC and DMHR with the three
model functions, then build the result row with the three values rounded
to 2 decimal places. -/
def computeRow (m : MachineInputs) : Except PyError ResultRow := do
  let FC ← calculate_fixed_costs m.Pm m.Ls m.inflation_rate m.insurance_rate
    m.am m.Af m.Cb m.Hf m.Oc m.tax_env_cost
  let VC := calculate_variable_costs m.Pt_m m.Rt m.Sm m.Um m.labour_rate m.Hf
  let DMHR ← calculate_dmhr FC VC m.Hf
  return ⟨m.Machine, pyRound2 FC, pyRound2 VC, pyRound2 DMHR, m.Hf, m.Pm, m.Ls⟩

/-- The compare loop of the "Compare All Machines" button
(`web_dmhr.py` lines 205-223): iterate over the machines in order,
computing one row each.  A Python exception raised for any machine
propagates out of the loop and discards the whole `results` list, which
the `Except` monad models by short-circuiting to `.error`. -/
def compare_button : List MachineInputs → Except PyError (List ResultRow)
  | [] => .ok []
  | m :: rest => do
    let r ← computeRow m
    let rs ← compare_button rest
    return r :: rs

/-- The exact (unrounded) fixed cost of a machine whose computation does
not raise, written as the closed-form sum of the six terms. -/
def fcPure (m : MachineInputs) : ℚ :=
  m.Pm / m.Ls + m.Pm * m.inflation_rate + m.Pm * m.insurance_rate +
    (if m.Af ≠ 0 then (m.am / m.Af) * m.Cb else 0) + m.Hf / m.Ls * m.Oc +
    m.tax_env_cost

/-- The exact (unrounded) variable cost of a machine. -/
def vcPure (m : MachineInputs) : ℚ :=
  calculate_variable_costs m.Pt_m m.Rt m.Sm m.Um m.labour_rate m.Hf

/-- The result row the compare loop produces for a machine whose
computation does not raise. -/
def rowPure (m : MachineInputs) : ResultRow :=
  ⟨m.Machine, pyRound2 (fcPure m), pyRound2 (vcPure m),
    pyRound2 ((fcPure m + vcPure m) / m.Hf), m.Hf, m.Pm, m.Ls⟩

/-- Machine A of the spec's concrete scenario (the default values of the
single-machine form in `web_dmhr.py`). -/
def machineA : MachineInputs :=
  ⟨"Machine A", 500000, 20000, 5 / 100, 2 / 100, 50, 500, 1000000, 1000,
    500000, 50000, 2000, 50, 100000, 50000, 1000⟩

/-- Machine B of the spec's two-machine comparison scenario: every value of
Machine A halved, except `Hf` (hours used) held at 1000. -/
def machineB : MachineInputs :=
  ⟨"Machine B", 250000, 10000, 5 / 200, 1 / 100, 25, 250, 500000, 1000,
    250000, 25000, 1000, 25, 50000, 25000, 500⟩

/-- A minimal machine on which every computation succeeds (all divisors 1). -/
def okMachine : MachineInputs :=
  ⟨"OK", 1, 1, 0, 0, 0, 1, 0, 1, 0, 0, 0, 0, 0, 0, 0⟩

/-- A machine with `Hf = 0` (hours used), on which `calculate_dmhr` raises
`ZeroDivisionError`. -/
def badHoursMachine : MachineInputs :=
  ⟨"Bad", 1, 1, 0, 0, 0, 1, 0, 0, 0, 0, 0, 0, 0, 0, 0⟩

/-- A machine whose exact fixed cost is `100 / 3`, a value that two decimal
places cannot represent. -/
def thirdMachine : MachineInputs :=
  ⟨"Third", 100, 3, 0, 0, 0, 1, 0, 1, 0, 0, 0, 0, 0, 0, 0⟩

lemma pyDiv_ne (a b : ℚ) (hb : b ≠ 0) : pyDiv a b = .ok (a / b) := by
  simp [pyDiv, hb]

lemma pyDiv_zero (a : ℚ) : pyDiv a 0 = .error .zeroDivision := by
  simp [pyDiv]

lemma calculate_fixed_costs_eq (Pm Ls ir sr am Af Cb Hf Oc tax : ℚ)
    (hLs : Ls ≠ 0) :
    calculate_fixed_costs Pm Ls ir sr am Af Cb Hf Oc tax =
      .ok (Pm / Ls + Pm * ir + Pm * sr +
        (if Af ≠ 0 then (am / Af) * Cb else 0) + Hf / Ls * Oc + tax) := by
  simp [calculate_fixed_costs, pyDiv, hLs, Bind.bind, Except.bind, Pure.pure,
    Except.pure]

lemma calculate_fixed_costs_zero (Pm ir sr am Af Cb Hf Oc tax : ℚ) :
    calculate_fixed_costs Pm 0 ir sr am Af Cb Hf Oc tax =
      .error .zeroDivision := by
  simp [calculate_fixed_costs, pyDiv, Bind.bind, Except.bind]

lemma calculate_dmhr_ne (FC VC H : ℚ) (hH : H ≠ 0) :
    calculate_dmhr FC VC H = .ok ((FC + VC) / H) := by
  simp [calculate_dmhr, pyDiv, hH]

lemma calculate_dmhr_zero (FC VC : ℚ) :
    calculate_dmhr FC VC 0 = .error .zeroDivision := by
  simp [calculate_dmhr, pyDiv]

lemma computeRow_eq (m : MachineInputs) (hLs : m.Ls ≠ 0) (hHf : m.Hf ≠ 0) :
    computeRow m = .ok (rowPure m) := by
  simp [computeRow, calculate_fixed_costs_eq _ _ _ _ _ _ _ _ _ _ hLs,
    calculate_dmhr_ne _ _ _ hHf, Bind.bind, Except.bind, Pure.pure,
    Except.pure, rowPure, fcPure, vcPure]

lemma computeRow_ok (m : MachineInputs) (r : ResultRow)
    (h : computeRow m = .ok r) : r = rowPure m := by
  by_cases hLs : m.Ls = 0
  · simp [computeRow, calculate_fixed_costs_zero, hLs, Bind.bind,
      Except.bind] at h
  · by_cases hHf : m.Hf = 0
    · rw [computeRow, calculate_fixed_costs_eq _ _ _ _ _ _ _ _ _ _ hLs] at h
      simp [hHf, calculate_dmhr_zero, Bind.bind, Except.bind] at h
    · rw [computeRow_eq m hLs hHf] at h
      exact (Except.ok.inj h).symm

lemma computeRow_hf_zero (m : MachineInputs) (hLs : m.Ls ≠ 0)
    (hHf : m.Hf = 0) : computeRow m = .error .zeroDivision := by
  rw [computeRow, calculate_fixed_costs_eq _ _ _ _ _ _ _ _ _ _ hLs]
  simp [hHf, calculate_dmhr_zero, Bind.bind, Except.bind]

lemma compare_button_ok_map (ms : List MachineInputs) :
    ∀ rs : List ResultRow, compare_button ms = .ok rs →
      rs = ms.map rowPure := by
  induction ms with
  | nil =>
    intro rs h
    simpa [compare_button] using (Except.ok.inj h).symm
  | cons m rest ih =>
    intro rs h
    rw [compare_button] at h
    cases hr : computeRow m with
    | error e => rw [hr] at h; simp [Bind.bind, Except.bind] at h
    | ok r =>
      rw [hr] at h
      cases hrest : compare_button rest with
      | error e => rw [hrest] at h; simp [Bind.bind, Except.bind] at h
      | ok rs' =>
        rw [hrest] at h
        simp only [Bind.bind, Except.bind, Pure.pure, Except.pure] at h
        have hrs : r :: rs' = rs := Except.ok.inj h
        subst hrs
        simp [List.map, computeRow_ok m r hr, ih rs' hrest]

lemma compare_button_eq (ms : List MachineInputs)
    (h : ∀ m ∈ ms, m.Ls ≠ 0 ∧ m.Hf ≠ 0) :
    compare_button ms = .ok (ms.map rowPure) := by
  induction ms with
  | nil => simp [compare_button]
  | cons m rest ih =>
    have hm := h m (List.mem_cons_self m rest)
    rw [compare_button, computeRow_eq m hm.1 hm.2,
      ih fun x hx => h x (List.mem_cons_of_mem m hx)]
    rfl

lemma compare_button_fail (ms : List MachineInputs) (m : MachineInputs)
    (hm : m ∈ ms) (hfail : ∃ e, computeRow m = .error e) :
    ∃ e, compare_button ms = .error e := by
  induction ms with
  | nil => cases hm
  | cons m0 rest ih =>
    rcases List.mem_cons.1 hm with h0 | h0
    · subst h0
      obtain ⟨e, he⟩ := hfail
      exact ⟨e, by rw [compare_button, he]; rfl⟩
    · cases hr : computeRow m0 with
      | error e => exact ⟨e, by rw [compare_button, hr]; rfl⟩
      | ok r =>
        obtain ⟨e, he⟩ := ih h0
        exact ⟨e, by rw [compare_button, hr, he]; rfl⟩

/-- C1 counterexample: the claim says any zero-or-negative divisor makes the
computation fail with `InvalidInput` before any computation proceeds.  In the
code, a negative `lifeSpanHours` is accepted by `calculate_fixed_costs` and
yields a finite value, `totalFactoryArea = 0` is silently mapped to a zero
building-space term rather than an error, and a negative `hoursUsed` is
accepted by `calculate_dmhr`. -/
theorem C1_counterexample :
    calculate_fixed_costs 500000 (-1) (5 / 100) (2 / 100) 50 500 1000000 1000
        500000 50000 = .ok (-500315000) ∧
    calculate_fixed_costs 500000 20000 (5 / 100) (2 / 100) 50 0 1000000 1000
        500000 50000 = .ok 110025 ∧
    calculate_dmhr 210025 1250000 (-1000) = .ok (-(1460025 / 1000)) := by
  refine ⟨?_, ?_, ?_⟩
  · rw [calculate_fixed_costs_eq _ _ _ _ _ _ _ _ _ _ (by norm_num)]
    norm_num
  · rw [calculate_fixed_costs_eq _ _ _ _ _ _ _ _ _ _ (by norm_num)]
    norm_num
  · rw [calculate_dmhr_ne _ _ _ (by norm_num)]
    norm_num

/-- C1 (amended): only a divisor that is exactly zero makes the computation
fail, and it fails with Python's `ZeroDivisionError` raised at the division,
not with an `InvalidInput` validation error before computation; the functions
never return a division-produced infinity because the zero case raises
instead.  Every nonzero divisor — negative ones included — is accepted and
produces a finite value. -/
theorem C1_zero_divisor_behaviour (Pm ir sr am Af Cb Hf Oc tax FC VC : ℚ) :
    calculate_fixed_costs Pm 0 ir sr am Af Cb Hf Oc tax =
      .error .zeroDivision ∧
    calculate_dmhr FC VC 0 = .error .zeroDivision ∧
    (∀ Ls : ℚ, Ls ≠ 0 →
      calculate_fixed_costs Pm Ls ir sr am Af Cb Hf Oc tax =
        .ok (Pm / Ls + Pm * ir + Pm * sr +
          (if Af ≠ 0 then am / Af * Cb else 0) + Hf / Ls * Oc + tax)) ∧
    (∀ H : ℚ, H ≠ 0 → calculate_dmhr FC VC H = .ok ((FC + VC) / H)) :=
  ⟨calculate_fixed_costs_zero Pm ir sr am Af Cb Hf Oc tax,
   calculate_dmhr_zero FC VC,
   fun Ls hLs => calculate_fixed_costs_eq Pm Ls ir sr am Af Cb Hf Oc tax hLs,
   fun H hH => calculate_dmhr_ne FC VC H hH⟩

/-- C1 witness: the amended behaviour at concrete inputs — a zero life span
raises, and a negative hours-used divisor is accepted. -/
theorem C1_witness :
    calculate_fixed_costs 1 0 0 0 0 1 0 1 0 0 = .error .zeroDivision ∧
    calculate_dmhr 3 4 (-2) = .ok ((3 + 4) / (-2)) :=
  ⟨(C1_zero_divisor_behaviour 1 0 0 0 1 0 1 0 0 3 4).1,
   (C1_zero_divisor_behaviour 1 0 0 0 1 0 1 0 0 3 4).2.2.2 (-2) (by norm_num)⟩

/-- C2: if any machine of a batch (length ≥ 2) fails, the compare loop fails
without producing a result for any machine, and any sequence it does return
is complete — one row per input machine. -/
theorem C2_batch_fail_fast (ms : List MachineInputs) (h2 : 2 ≤ ms.length)
    (hfail : ∃ m ∈ ms, ∃ e, computeRow m = .error e) :
    (∃ e, compare_button ms = .error e) ∧
    ∀ rs : List ResultRow, compare_button ms = .ok rs →
      rs.length = ms.length := by
  obtain ⟨m, hm, he⟩ := hfail
  refine ⟨compare_button_fail ms m hm he, fun rs hrs => ?_⟩
  rw [compare_button_ok_map ms rs hrs]
  simp

/-- C2 witness: a three-machine batch whose second machine has zero hours
used fails as a whole. -/
theorem C2_witness :
    ∃ e, compare_button [okMachine, badHoursMachine, okMachine] =
      .error e :=
  (C2_batch_fail_fast [okMachine, badHoursMachine, okMachine] (by simp)
    ⟨badHoursMachine, by simp, .zeroDivision,
      computeRow_hf_zero badHoursMachine (by norm_num [badHoursMachine])
        (by norm_num [badHoursMachine])⟩).1

/-- C3: for FC, VC ≥ 0 and hours used H > 0, `calculate_dmhr` returns
exactly `(FC + VC) / H`. -/
theorem C3_dmhr_exact (FC VC H : ℚ) (hFC : 0 ≤ FC) (hVC : 0 ≤ VC)
    (hH : 0 < H) : calculate_dmhr FC VC H = .ok ((FC + VC) / H) :=
  calculate_dmhr_ne FC VC H (ne_of_gt hH)

/-- C3 witness: the scenario values. -/
theorem C3_witness :
    calculate_dmhr 210025 1250000 1000 = .ok ((210025 + 1250000) / 1000) :=
  C3_dmhr_exact 210025 1250000 1000 (by norm_num) (by norm_num) (by norm_num)

/-- C4: with positive life span and factory area, `calculate_fixed_costs`
returns the sum of the six terms of the fixed-cost formula. -/
theorem C4_fixed_cost_sum (Pm Ls ir sr am Af Cb Hf Oc tax : ℚ)
    (hLs : 0 < Ls) (hAf : 0 < Af) :
    calculate_fixed_costs Pm Ls ir sr am Af Cb Hf Oc tax =
      .ok (Pm / Ls + Pm * ir + Pm * sr + am / Af * Cb + Hf / Ls * Oc +
        tax) := by
  rw [calculate_fixed_costs_eq _ _ _ _ _ _ _ _ _ _ hLs.ne']
  simp [hAf.ne']

/-- C4 witness: the scenario values. -/
theorem C4_witness :
    calculate_fixed_costs 500000 20000 (5 / 100) (2 / 100) 50 500 1000000
        1000 500000 50000 =
      .ok (500000 / 20000 + 500000 * (5 / 100) + 500000 * (2 / 100) +
        50 / 500 * 1000000 + 1000 / 20000 * 500000 + 50000) :=
  C4_fixed_cost_sum 500000 20000 (5 / 100) (2 / 100) 50 500 1000000 1000
    500000 50000 (by norm_num) (by norm_num)

/-- C5: on a batch where every machine passes the divisor checks, the compare
loop returns exactly one row per machine, in input order, with every label
copied verbatim from the corresponding input (so duplicate labels simply
produce duplicate-labelled rows). -/
theorem C5_order_length_labels (ms : List MachineInputs)
    (hvalid : ∀ m ∈ ms, 0 < m.Ls ∧ 0 < m.Af ∧ 0 < m.Hf) :
    ∃ rs : List ResultRow, compare_button ms = .ok rs ∧
      rs.length = ms.length ∧
      ∀ i : ℕ, Option.map ResultRow.Machine rs[i]? =
        Option.map MachineInputs.Machine ms[i]? := by
  refine ⟨ms.map rowPure,
    compare_button_eq ms fun m hm =>
      ⟨(hvalid m hm).1.ne', (hvalid m hm).2.2.ne'⟩,
    by simp, fun i => ?_⟩
  rw [List.getElem?_map]
  cases ms[i]? <;> simp [rowPure]

/-- C5 witness: a batch of two machines with identical (duplicate) labels is
processed into two rows carrying those labels. -/
theorem C5_witness :
    ∃ rs : List ResultRow, compare_button [machineA, machineA] = .ok rs ∧
      rs.length = ([machineA, machineA] : List MachineInputs).length ∧
      ∀ i : ℕ, Option.map ResultRow.Machine rs[i]? =
        Option.map MachineInputs.Machine
          ([machineA, machineA] : List MachineInputs)[i]? :=
  C5_order_length_labels [machineA, machineA]
    (by intro m hm; fin_cases hm <;> norm_num [machineA])

/-- C6 counterexample: the claim says the values the compare loop hands to
aggregation/reporting are the exact unrounded model values.  For a machine
whose exact fixed cost is `100 / 3`, the row the loop produces stores
`33.33`, which differs from the exact value. -/
theorem C6_counterexample :
    compare_button [thirdMachine] =
      .ok [⟨"Third", 3333 / 100, 0, 3333 / 100, 1, 100, 3⟩] ∧
    calculate_fixed_costs 100 3 0 0 0 1 0 1 0 0 = .ok (100 / 3) ∧
    (3333 / 100 : ℚ) ≠ 100 / 3 := by
  refine ⟨?_, ?_, by norm_num⟩
  · rw [compare_button_eq [thirdMachine]
      (by intro m hm; fin_cases hm <;> norm_num [thirdMachine])]
    simp only [List.map, Except.ok.injEq, List.cons.injEq, and_true]
    norm_num [rowPure, fcPure, vcPure, thirdMachine,
      calculate_variable_costs, pyRound2, roundHalfEven,
      ResultRow.mk.injEq]
  · rw [calculate_fixed_costs_eq _ _ _ _ _ _ _ _ _ _ (by norm_num)]
    norm_num

/-- C6 (amended): the model functions themselves return the exact unrounded
values and DMHR is computed from the unrounded FC and VC, but the compare
loop stores FC, VC and DMHR rounded to two decimal places in the result rows
it hands to rendering and export. -/
theorem C6_rounding_in_loop (m : MachineInputs) (hLs : m.Ls ≠ 0)
    (hHf : m.Hf ≠ 0) :
    calculate_fixed_costs m.Pm m.Ls m.inflation_rate m.insurance_rate m.am
        m.Af m.Cb m.Hf m.Oc m.tax_env_cost = .ok (fcPure m) ∧
    calculate_variable_costs m.Pt_m m.Rt m.Sm m.Um m.labour_rate m.Hf =
      vcPure m ∧
    calculate_dmhr (fcPure m) (vcPure m) m.Hf =
      .ok ((fcPure m + vcPure m) / m.Hf) ∧
    computeRow m = .ok ⟨m.Machine, pyRound2 (fcPure m), pyRound2 (vcPure m),
      pyRound2 ((fcPure m + vcPure m) / m.Hf), m.Hf, m.Pm, m.Ls⟩ := by
  refine ⟨?_, rfl, calculate_dmhr_ne _ _ _ hHf, computeRow_eq m hLs hHf⟩
  rw [calculate_fixed_costs_eq _ _ _ _ _ _ _ _ _ _ hLs]
  rfl

/-- C6 witness: the amended statement at Machine A. -/
theorem C6_witness :
    computeRow machineA = .ok ⟨machineA.Machine, pyRound2 (fcPure machineA),
      pyRound2 (vcPure machineA),
      pyRound2 ((fcPure machineA + vcPure machineA) / machineA.Hf),
      machineA.Hf, machineA.Pm, machineA.Ls⟩ :=
  (C6_rounding_in_loop machineA (by norm_num [machineA])
    (by norm_num [machineA])).2.2.2

/-- C7: two-run noninterference across batch elements — if two successful
batches hold the same machine record at positions `i` and `j`, the rows at
those positions agree, whatever the other machines are. -/
theorem C7_noninterference (ms₁ ms₂ : List MachineInputs)
    (rs₁ rs₂ : List ResultRow) (i j : ℕ)
    (h₁ : compare_button ms₁ = .ok rs₁) (h₂ : compare_button ms₂ = .ok rs₂)
    (heq : ms₁[i]? = ms₂[j]?) : rs₁[i]? = rs₂[j]? := by
  rw [compare_button_ok_map ms₁ rs₁ h₁, compare_button_ok_map ms₂ rs₂ h₂,
    List.getElem?_map, List.getElem?_map, heq]

/-- C7 witness: Machine A's row is the same whether it is first in a batch
with Machine B or second in a batch with the machines swapped. -/
theorem C7_witness :
    (List.map rowPure [machineA, machineB])[0]? =
      (List.map rowPure [machineB, machineA])[1]? :=
  C7_noninterference [machineA, machineB] [machineB, machineA]
    (List.map rowPure [machineA, machineB])
    (List.map rowPure [machineB, machineA]) 0 1
    (compare_button_eq [machineA, machineB]
      (by intro m hm; fin_cases hm <;> norm_num [machineA, machineB]))
    (compare_button_eq [machineB, machineA]
      (by intro m hm; fin_cases hm <;> norm_num [machineA, machineB]))
    rfl

/-- C8: the spec's concrete single-machine scenario — FC = 210025,
VC = 1250000, DMHR = 1460.025 exactly. -/
theorem C8_concrete_scenario :
    calculate_fixed_costs 500000 20000 (5 / 100) (2 / 100) 50 500 1000000
        1000 500000 50000 = .ok 210025 ∧
    calculate_variable_costs 2000 50 100000 50000 1000 1000 = 1250000 ∧
    calculate_dmhr 210025 1250000 1000 = .ok (1460025 / 1000) := by
  refine ⟨?_, by norm_num [calculate_variable_costs], ?_⟩
  · rw [calculate_fixed_costs_eq _ _ _ _ _ _ _ _ _ _ (by norm_num)]
    norm_num
  · rw [calculate_dmhr_ne _ _ _ (by norm_num)]
    norm_num

/-- C9: the two-machine comparison — Machine A's scenario values against
Machine B with everything halved except hours used.  The compare loop
returns the two rows in order [A, B] and B's DMHR is strictly below A's. -/
theorem C9_two_machine_comparison :
    ∃ rA rB : ResultRow,
      compare_button [machineA, machineB] = .ok [rA, rB] ∧
      rA.Machine = machineA.Machine ∧ rB.Machine = machineB.Machine ∧
      rB.dmhr < rA.dmhr := by
  refine ⟨rowPure machineA, rowPure machineB, ?_, rfl, rfl, ?_⟩
  · simpa using compare_button_eq [machineA, machineB]
      (by intro m hm; fin_cases hm <;> norm_num [machineA, machineB])
  · have hA : (rowPure machineA).dmhr = 73001 / 50 := by
      norm_num [rowPure, fcPure, vcPure, machineA, calculate_variable_costs,
        pyRound2, roundHalfEven]
    have hB : (rowPure machineB).dmhr = 35439 / 50 := by
      norm_num [rowPure, fcPure, vcPure, machineB, calculate_variable_costs,
        pyRound2, roundHalfEven]
    rw [hA, hB]
    norm_num

/-- C10: with `Af = 0` (total factory area) and a nonzero life span,
`calculate_fixed_costs` does not fail: it returns the fixed-cost sum with
the building-space term silently taken as 0. -/
theorem C10_zero_area_building_term (Pm Ls ir sr am Cb Hf Oc tax : ℚ)
    (hLs : Ls ≠ 0) :
    calculate_fixed_costs Pm Ls ir sr am 0 Cb Hf Oc tax =
      .ok (Pm / Ls + Pm * ir + Pm * sr + 0 + Hf / Ls * Oc + tax) := by
  rw [calculate_fixed_costs_eq _ _ _ _ _ _ _ _ _ _ hLs]
  simp

/-- C10 witness: the scenario values with the factory area set to zero. -/
theorem C10_witness :
    calculate_fixed_costs 500000 20000 (5 / 100) (2 / 100) 50 0 1000000 1000
        500000 50000 =
      .ok (500000 / 20000 + 500000 * (5 / 100) + 500000 * (2 / 100) + 0 +
        1000 / 20000 * 500000 + 50000) :=
  C10_zero_area_building_term 500000 20000 (5 / 100) (2 / 100) 50 1000000
    1000 500000 50000 (by norm_num)
